import Mathlib

/-!
Verification development for the Whisper-WebUI repository
(`modules/whisper_Inference.py` and `app.py`).

The Python code is shallowly embedded as pure Lean functions:

* `update_model_if_needed` mirrors `WhisperInference.update_model_if_needed`,
  acting on an explicit `WhisperState` record instead of `self`.
* `transcribe_call_args` computes the (language, task, fp16) arguments that
  `WhisperInference.transcribe` passes to the underlying
  `self.model.transcribe(...)` call.
* `generate_and_write_file` mirrors the static method of the same name;
  since `datetime.now()` is an external effect, the timestamp string is an
  explicit parameter.  The returned record carries both the returned pair
  and the list of `write_file` invocations that would have happened.
* The three public entry points (`transcribe_file`, `transcribe_youtube`,
  `transcribe_mic`) are embedded as functions from an exception oracle
  (`ExcCfg`, saying which external call raises) to the observable `Outcome`
  of the `try`/`except`/`finally` control flow.

Timestamps of transcription segments are modelled in integer milliseconds.
Paths are modelled POSIX-style (`os.path.join "outputs" x = "outputs/" ++ x`).
-/

namespace WhisperWebUI

/-- A loaded whisper model handle, identified by the arguments of the
`whisper.load_model(name=model_size, device=self.device, download_root=...)`
call that produced it. -/
structure LoadedModel where
  name : String
  device : String
  download_root : String
deriving DecidableEq

/-- The mutable fields of `WhisperInference` that
`update_model_if_needed` reads or writes.  `current_model_size` and `model`
start as Python `None`, hence `Option`. -/
structure WhisperState where
  current_model_size : Option String
  model : Option LoadedModel
  device : String
  current_compute_type : String
deriving DecidableEq

/-- Embedding of `WhisperInference.update_model_if_needed` (lines 361-378):
first the compute type is recorded if it changed, then the model is
(re)loaded when the requested size differs from `current_model_size` or no
model is cached.  In Python `model_size != self.current_model_size` compares
a `str` against `str | None`; here that is `some model_size ≠ current_model_size`. -/
def update_model_if_needed (s : WhisperState) (model_size : String)
    (compute_type : String) : WhisperState :=
  let s1 := if compute_type ≠ s.current_compute_type
            then { s with current_compute_type := compute_type }
            else s
  if some model_size ≠ s1.current_model_size ∨ s1.model = none then
    { s1 with
      current_model_size := some model_size,
      model := some { name := model_size, device := s1.device,
                      download_root := "models/Whisper" } }
  else s1

/-- The model sizes accepted for translate-to-English, from
`WhisperInference.transcribe` line 347 (the same list appears in
`App.on_change_models`, app.py line 34). -/
def translatable_model : List String := ["large", "large-v1", "large-v2", "large-v3"]

/-- Python `self.current_model_size in translatable_model` where
`current_model_size : str | None`; `None in [...]` is `False`. -/
def isTranslatableSize (cms : Option String) : Bool :=
  match cms with
  | some m => translatable_model.contains m
  | none => false

/-- The arguments that `WhisperInference.transcribe` passes to
`self.model.transcribe(...)` which depend on this repository's logic. -/
structure ModelCallArgs where
  language : Option String
  task : String
  fp16 : Bool
deriving DecidableEq

/-- Embedding of the argument marshaling in `WhisperInference.transcribe`
(lines 344-356): `lang` is replaced by `None` exactly when it equals the
literal string "Automatic Detection"; the task is "translate" only when
translation was requested and the current model size is translatable;
`fp16` is true exactly for compute type "float16". -/
def transcribe_call_args (current_model_size : Option String) (lang : String)
    (istranslate : Bool) (compute_type : String) : ModelCallArgs :=
  let lang2 : Option String :=
    if lang = "Automatic Detection" then none else some lang
  { language := lang2,
    task := if istranslate = true ∧ isTranslatableSize current_model_size = true
            then "translate" else "transcribe",
    fp16 := if compute_type = "float16" then true else false }

/-- The language dropdown choice offered by the UI for automatic language
detection, from app.py lines 52-53 (and identically in the YouTube and
microphone tabs): the choices list is `["自动检测"] ++ available_langs` with
default value "自动检测". -/
def uiAutoLangChoice : String := "自动检测"

/-- A transcription segment as produced by the model call: the Python dict
fields `start`, `end` (seconds, here integer milliseconds since `end` is a
reserved word) and `text`. -/
structure Segment where
  startMs : Nat
  endMs : Nat
  text : String
deriving DecidableEq

/-- Two-digit zero padding for the hour, minute and second fields. -/
def pad2 (n : Nat) : String :=
  if n < 10 then "0" ++ toString n else toString n

/-- Three-digit zero padding for the millisecond field. -/
def pad3 (n : Nat) : String :=
  if n < 10 then "00" ++ toString n
  else if n < 100 then "0" ++ toString n
  else toString n

/-- Renders a millisecond timestamp as `HH:MM:SS<sep>mmm` (comma separator
for SRT, dot for WebVTT). -/
def timeHMSms (sep : String) (ms : Nat) : String :=
  pad2 (ms / 3600000) ++ ":" ++ pad2 (ms / 60000 % 60) ++ ":" ++
    pad2 (ms / 1000 % 60) ++ sep ++ pad3 (ms % 1000)

/-- Modelled from the spec: `get_srt` lives in modules/subtitle_manager.py,
which is not under src.  Spec 4.3: SRT is a 1-based sequential index, then
`HH:MM:SS,mmm --> HH:MM:SS,mmm`, then the segment text, with a blank line as
separator. -/
def get_srt (segments : List Segment) : String :=
  String.join (segments.enum.map (fun p =>
    toString (p.1 + 1) ++ "\n" ++
      timeHMSms "," p.2.startMs ++ " --> " ++ timeHMSms "," p.2.endMs ++ "\n" ++
      p.2.text ++ "\n\n"))

/-- Modelled from the spec: `get_vtt` lives in modules/subtitle_manager.py,
which is not under src.  Spec 4.3: WebVTT is a header line `WEBVTT`, then
`HH:MM:SS.mmm --> HH:MM:SS.mmm`, then the segment text. -/
def get_vtt (segments : List Segment) : String :=
  "WEBVTT\n\n" ++ String.join (segments.map (fun s =>
    timeHMSms "." s.startMs ++ " --> " ++ timeHMSms "." s.endMs ++ "\n" ++
      s.text ++ "\n\n"))

/-- Modelled from the spec: `get_txt` lives in modules/subtitle_manager.py,
which is not under src.  Spec 4.3: plain text is the segment texts
concatenated, one per line, no timestamps. -/
def get_txt (segments : List Segment) : String :=
  String.join (segments.map (fun s => s.text ++ "\n"))

/-- Characters that are illegal in filenames on the host filesystem. -/
def illegalFilenameChars : List Char :=
  ['\\', '/', ':', '*', '?', '<', '>', '|', '\"']

/-- Modelled from the spec: `safe_filename` lives in
modules/subtitle_manager.py, which is not under src.  Spec 4.3: filenames
are sanitized to remove characters illegal in the host filesystem before
use. -/
def safe_filename (name : String) : String :=
  String.mk (name.data.filter (fun c => !(illegalFilenameChars.contains c)))

/-- Helper for `basename`: keeps the characters seen since the last slash. -/
def basenameChars : List Char → List Char → List Char
  | [], acc => acc.reverse
  | c :: cs, acc =>
    if c = '/' then basenameChars cs [] else basenameChars cs (c :: acc)

/-- POSIX `os.path.basename`: the part of the path after the last slash. -/
def basename (p : String) : String :=
  String.mk (basenameChars p.data [])

/-- Index of the last dot in a list of characters, if any. -/
def lastDotIndex : List Char → Option Nat
  | [] => none
  | c :: cs =>
    match lastDotIndex cs with
    | some i => some (i + 1)
    | none => if c = '.' then some 0 else none

/-- The root of `os.path.splitext` applied to `os.path.basename`, as in
`transcribe_file` line 99: the extension starts at the last dot of the
basename, except that a basename whose characters before that dot are all
dots is not split. -/
def fileStem (p : String) : String :=
  let b := basename p
  let cs := b.data
  match lastDotIndex cs with
  | none => b
  | some i =>
    if (cs.take i).any (fun c => c ≠ '.') then String.mk (cs.take i) else b

/-- Result of `generate_and_write_file`: the `(content, output_path)` pair
the Python method returns (`none` models the `UnboundLocalError` raised at
the return statement when `content` was never assigned), together with the
`(content, path)` arguments of each `write_file` call performed. -/
structure GenResult where
  returned : Option (String × String)
  written : List (String × String)
deriving DecidableEq

/-- Embedding of the static method
`WhisperInference.generate_and_write_file` (lines 380-409).  The
`datetime.now().strftime(...)` value is an external effect and is passed in
as the `timestamp` parameter; `os.path.join "outputs" x` is the POSIX
`"outputs/" ++ x`.  For a file format other than SRT/WebVTT/txt no branch
assigns `content`, no file is written, and the trailing
`return content, output_path` raises `UnboundLocalError`. -/
def generate_and_write_file (file_name : String)
    (transcribed_segments : List Segment) (add_timestamp : Bool)
    (file_format : String) (timestamp : String) : GenResult :=
  let output_path :=
    if add_timestamp then "outputs/" ++ file_name ++ "-" ++ timestamp
    else "outputs/" ++ file_name
  if file_format = "SRT" then
    let content := get_srt transcribed_segments
    let path := output_path ++ ".srt"
    { returned := some (content, path), written := [(content, path)] }
  else if file_format = "WebVTT" then
    let content := get_vtt transcribed_segments
    let path := output_path ++ ".vtt"
    { returned := some (content, path), written := [(content, path)] }
  else if file_format = "txt" then
    let content := get_txt transcribed_segments
    let path := output_path ++ ".txt"
    { returned := some (content, path), written := [(content, path)] }
  else { returned := none, written := [] }

/-- Exception oracle for the external calls made by the three public entry
points: each flag says whether the corresponding external call raises when
invoked during this run (a deterministic failure, so the same call raises
again if retried, as with an invalid YouTube link). -/
structure ExcCfg where
  update_model_raises : Bool
  load_audio_raises : Bool
  model_transcribe_raises : Bool
  write_file_raises : Bool
  get_ytdata_raises : Bool
  get_ytaudio_raises : Bool
  release_raises : Bool
  remove_raises : Bool
deriving DecidableEq

/-- The call sites of the entry points whose exception can be observed. -/
inductive ExcSrc where
  | updateModel
  | loadAudio
  | modelTranscribe
  | writeFile
  | genFormat
  | ytData
  | ytAudio
  | releaseMem
  | removeFiles
deriving DecidableEq

/-- Whether an exception source belongs to the cleanup code
(`release_cuda_memory` / `remove_input_files`) rather than the try body. -/
def ExcSrc.isCleanup : ExcSrc → Bool
  | ExcSrc.releaseMem => true
  | ExcSrc.removeFiles => true
  | _ => false

/-- Arguments of one `generate_and_write_file` invocation made by an entry
point. -/
structure GenCall where
  file_name : String
  add_timestamp : Bool
  file_format : String
deriving DecidableEq

/-- Observable outcome of one run of a public entry point:
which body exception occurred (if any), whether the except handler logged a
message, which `generate_and_write_file` calls were entered, whether the
cleanup calls were invoked, which exception (if any) escaped to the caller,
and whether the entry point completed its normal `return`. -/
structure Outcome where
  bodyFail : Option ExcSrc
  logged : Bool
  genCalls : List GenCall
  releaseRan : Bool
  removeRan : Bool
  propagated : Option ExcSrc
  normalReturn : Bool
deriving DecidableEq

/-- The bare `finally` block shared by `transcribe_file` (lines 123-125) and
`transcribe_mic` (lines 292-294): `release_cuda_memory()` then
`remove_input_files(...)`, with no handler of its own, so a cleanup
exception propagates to the caller (and skips `remove_input_files` when
`release_cuda_memory` is the one that raised).  The body exception, if any,
was already consumed by the `except` handler, which printed a message. -/
def bareFinallyOutcome (cfg : ExcCfg) (bf : Option ExcSrc)
    (gens : List GenCall) : Outcome :=
  if cfg.release_raises then
    { bodyFail := bf, logged := bf.isSome, genCalls := gens,
      releaseRan := true, removeRan := false,
      propagated := some ExcSrc.releaseMem, normalReturn := false }
  else if cfg.remove_raises then
    { bodyFail := bf, logged := bf.isSome, genCalls := gens,
      releaseRan := true, removeRan := true,
      propagated := some ExcSrc.removeFiles, normalReturn := false }
  else
    { bodyFail := bf, logged := bf.isSome, genCalls := gens,
      releaseRan := true, removeRan := true,
      propagated := none, normalReturn := bf.isNone }

/-- The per-file loop in the body of `transcribe_file` (lines 84-107): for
each file, `whisper.load_audio`, then `self.transcribe`, then
`generate_and_write_file` called with the `safe_filename`-sanitized stem of
the file's name.  Returns the first body exception (if any) together with
the `generate_and_write_file` calls that were entered. -/
def transcribe_file_loop (cfg : ExcCfg) (fileobjs : List String)
    (file_format : String) (add_timestamp : Bool) :
    Option ExcSrc × List GenCall :=
  match fileobjs with
  | [] => (none, [])
  | f :: rest =>
    if cfg.load_audio_raises then (some ExcSrc.loadAudio, [])
    else if cfg.model_transcribe_raises then (some ExcSrc.modelTranscribe, [])
    else
      let call : GenCall :=
        { file_name := safe_filename (fileStem f),
          add_timestamp := add_timestamp, file_format := file_format }
      if file_format = "SRT" ∨ file_format = "WebVTT" ∨ file_format = "txt" then
        if cfg.write_file_raises then (some ExcSrc.writeFile, [call])
        else
          let r := transcribe_file_loop cfg rest file_format add_timestamp
          (r.1, call :: r.2)
      else (some ExcSrc.genFormat, [call])

/-- Embedding of `transcribe_file` (lines 29-125): `update_model_if_needed`,
then the per-file loop, inside `try`/`except Exception`/`finally` where the
finally block is the unguarded `release_cuda_memory()`;
`remove_input_files(...)` sequence. -/
def transcribe_file_run (cfg : ExcCfg) (fileobjs : List String)
    (file_format : String) (add_timestamp : Bool) : Outcome :=
  let body : Option ExcSrc × List GenCall :=
    if cfg.update_model_raises then (some ExcSrc.updateModel, [])
    else transcribe_file_loop cfg fileobjs file_format add_timestamp
  bareFinallyOutcome cfg body.1 body.2

/-- Embedding of `transcribe_mic` (lines 220-294): `update_model_if_needed`,
then `self.transcribe` on the microphone recording (no separate
`whisper.load_audio` step), then `generate_and_write_file` with the literal
file name "Mic" and `add_timestamp=True`; the same unguarded finally block
as `transcribe_file`. -/
def transcribe_mic_run (cfg : ExcCfg) (file_format : String) : Outcome :=
  let body : Option ExcSrc × List GenCall :=
    if cfg.update_model_raises then (some ExcSrc.updateModel, [])
    else if cfg.model_transcribe_raises then (some ExcSrc.modelTranscribe, [])
    else
      let call : GenCall :=
        { file_name := "Mic", add_timestamp := true, file_format := file_format }
      if file_format = "SRT" ∨ file_format = "WebVTT" ∨ file_format = "txt" then
        if cfg.write_file_raises then (some ExcSrc.writeFile, [call])
        else (none, [call])
      else (some ExcSrc.genFormat, [call])
  bareFinallyOutcome cfg body.1 body.2

/-- Embedding of `transcribe_youtube` (lines 127-218): the body runs
`update_model_if_needed`, `get_ytdata`, `get_ytaudio`, `whisper.load_audio`,
`self.transcribe`, then `generate_and_write_file` with the sanitized
`yt.title` (parameter `ytTitle`).  The finally block first re-derives the
audio path — calling `get_ytdata` again when `yt` was never assigned in the
body, then `get_ytaudio` in either case — and only then invokes
`release_cuda_memory()` and `remove_input_files(...)`; the whole finally
block sits inside `try ... except Exception: pass`, so any exception in it
is swallowed and whatever follows the raising call is skipped. -/
def transcribe_youtube_run (cfg : ExcCfg) (ytTitle : String)
    (file_format : String) (add_timestamp : Bool) : Outcome :=
  let body : Option ExcSrc × Bool × List GenCall :=
    if cfg.update_model_raises then (some ExcSrc.updateModel, false, [])
    else if cfg.get_ytdata_raises then (some ExcSrc.ytData, false, [])
    else if cfg.get_ytaudio_raises then (some ExcSrc.ytAudio, true, [])
    else if cfg.load_audio_raises then (some ExcSrc.loadAudio, true, [])
    else if cfg.model_transcribe_raises then (some ExcSrc.modelTranscribe, true, [])
    else
      let call : GenCall :=
        { file_name := safe_filename ytTitle,
          add_timestamp := add_timestamp, file_format := file_format }
      if file_format = "SRT" ∨ file_format = "WebVTT" ∨ file_format = "txt" then
        if cfg.write_file_raises then (some ExcSrc.writeFile, true, [call])
        else (none, true, [call])
      else (some ExcSrc.genFormat, true, [call])
  let ytAssigned := body.2.1
  let prologueOk :=
    (ytAssigned || !cfg.get_ytdata_raises) && !cfg.get_ytaudio_raises
  { bodyFail := body.1, logged := body.1.isSome, genCalls := body.2.2,
    releaseRan := prologueOk,
    removeRan := prologueOk && !cfg.release_raises,
    propagated := none,
    normalReturn := body.1.isNone }

/-- All external calls succeed. -/
def cfgNone : ExcCfg :=
  ⟨false, false, false, false, false, false, false, false⟩

/-- Only the model call raises (e.g. malformed audio). -/
def cfgTransFail : ExcCfg :=
  ⟨false, false, true, false, false, false, false, false⟩

/-- Only `get_ytdata` raises (e.g. an invalid YouTube link). -/
def cfgYtDataFail : ExcCfg :=
  ⟨false, false, false, false, true, false, false, false⟩

/-- Only `release_cuda_memory` raises. -/
def cfgReleaseFail : ExcCfg :=
  ⟨false, false, false, false, false, false, true, false⟩

/-- Only `remove_input_files` raises. -/
def cfgRemoveFail : ExcCfg :=
  ⟨false, false, false, false, false, false, false, true⟩

end WhisperWebUI

namespace WhisperWebUI

/-- Claim C1: `update_model_if_needed` loads a fresh model from the requested
identifier (replacing any previous handle and recording the new size) when
the requested size differs from the cached one or no model is cached; when
the size matches and a model is cached, only the recorded compute type is
updated and the model handle is untouched. -/
theorem update_model_spec (s : WhisperState) (m c : String) :
    ((some m ≠ s.current_model_size ∨ s.model = none) →
      (update_model_if_needed s m c).model =
        some { name := m, device := s.device, download_root := "models/Whisper" } ∧
      (update_model_if_needed s m c).current_model_size = some m) ∧
    ((some m = s.current_model_size ∧ s.model ≠ none) →
      (update_model_if_needed s m c).current_compute_type = c ∧
      (update_model_if_needed s m c).model = s.model) := by
  by_cases hc : c = s.current_compute_type <;>
    by_cases hm : some m = s.current_model_size <;>
    by_cases hn : s.model = none <;>
    constructor <;>
    intro h <;>
    simp_all [update_model_if_needed]

/-- Witness for C1: from the initial state (nothing cached) requesting
"large-v3"/"float16" loads the model; from a state caching "base" with a
model present, requesting "base"/"float32" keeps the handle and records the
compute type. -/
theorem update_model_spec_witness :
    ((update_model_if_needed ⟨none, none, "cpu", "float32"⟩ "large-v3" "float16").model =
      some { name := "large-v3", device := "cpu", download_root := "models/Whisper" }) ∧
    ((update_model_if_needed
        ⟨some "base", some ⟨"base", "cpu", "models/Whisper"⟩, "cpu", "float16"⟩
        "base" "float32").current_compute_type = "float32") :=
  ⟨((update_model_spec ⟨none, none, "cpu", "float32"⟩ "large-v3" "float16").1
      (Or.inr rfl)).1,
   ((update_model_spec
        ⟨some "base", some ⟨"base", "cpu", "models/Whisper"⟩, "cpu", "float16"⟩
        "base" "float32").2 ⟨rfl, by simp⟩).1⟩

/-- Claim C2: with `istranslate` true, the task passed to the model call is
"translate" exactly when the current model size is in the translatable set
`["large", "large-v1", "large-v2", "large-v3"]`; for any other size the call
is downgraded to "transcribe" (no error path exists). -/
theorem transcribe_task_translatable_spec (cms : Option String) (lang ct : String) :
    ((transcribe_call_args cms lang true ct).task = "translate" ↔
      isTranslatableSize cms = true) ∧
    (isTranslatableSize cms = false →
      (transcribe_call_args cms lang true ct).task = "transcribe") := by
  unfold transcribe_call_args
  by_cases h : isTranslatableSize cms = true
  · simp [h]
  · simp only [Bool.not_eq_true] at h
    simp [h]

/-- Witness for C2: with model size "medium" (not translatable) a translate
request is downgraded to "transcribe". -/
theorem transcribe_task_translatable_spec_witness :
    (transcribe_call_args (some "medium") "english" true "float32").task = "transcribe" :=
  (transcribe_task_translatable_spec (some "medium") "english" "float32").2 (by decide)

/-- Claim C3 (code evaluation at the failing input): the UI's automatic
detection dropdown choice is the string "自动检测" (app.py), but
`transcribe` only maps the literal "Automatic Detection" to `None`; so when
the user selects automatic detection the model call receives the non-null
language "自动检测", not `None`. -/
theorem auto_detect_lang_code_eval :
    (transcribe_call_args (some "large-v3") uiAutoLangChoice true "float16").language =
      some "自动检测" ∧
    uiAutoLangChoice ≠ "Automatic Detection" ∧
    (transcribe_call_args (some "large-v3") "Automatic Detection" true "float16").language =
      none := by
  refine ⟨?_, by decide, ?_⟩ <;> simp [transcribe_call_args, uiAutoLangChoice]

/-- An option known to be `some` is not `none`. -/
theorem isNone_eq_false_of_isSome {α : Type} {o : Option α}
    (h : o.isSome = true) : o.isNone = false := by
  cases o <;> simp_all

/-- The bare finally block records exactly the generate calls of the body. -/
theorem bareFinally_genCalls (cfg : ExcCfg) (bf : Option ExcSrc)
    (gens : List GenCall) : (bareFinallyOutcome cfg bf gens).genCalls = gens := by
  unfold bareFinallyOutcome
  split_ifs <;> rfl

/-- The bare finally block always invokes `release_cuda_memory`. -/
theorem bareFinally_releaseRan (cfg : ExcCfg) (bf : Option ExcSrc)
    (gens : List GenCall) : (bareFinallyOutcome cfg bf gens).releaseRan = true := by
  unfold bareFinallyOutcome
  split_ifs <;> rfl

/-- The bare finally block invokes `remove_input_files` whenever
`release_cuda_memory` does not raise. -/
theorem bareFinally_removeRan (cfg : ExcCfg) (bf : Option ExcSrc)
    (gens : List GenCall) (h : cfg.release_raises = false) :
    (bareFinallyOutcome cfg bf gens).removeRan = true := by
  unfold bareFinallyOutcome
  split_ifs with h1 h2 <;> simp_all

/-- The bare finally block preserves the body-failure report. -/
theorem bareFinally_bodyFail (cfg : ExcCfg) (bf : Option ExcSrc)
    (gens : List GenCall) : (bareFinallyOutcome cfg bf gens).bodyFail = bf := by
  unfold bareFinallyOutcome
  split_ifs <;> rfl

/-- The except handler logs a message exactly when the body raised. -/
theorem bareFinally_logged (cfg : ExcCfg) (bf : Option ExcSrc)
    (gens : List GenCall) : (bareFinallyOutcome cfg bf gens).logged = bf.isSome := by
  unfold bareFinallyOutcome
  split_ifs <;> rfl

/-- After a body exception the normal return is never reached. -/
theorem bareFinally_normalReturn (cfg : ExcCfg) (bf : Option ExcSrc)
    (gens : List GenCall) (h : bf.isSome = true) :
    (bareFinallyOutcome cfg bf gens).normalReturn = false := by
  unfold bareFinallyOutcome
  split_ifs <;> simp_all [isNone_eq_false_of_isSome]

/-- Anything the bare finally block lets escape comes from the cleanup
calls, never from the body. -/
theorem bareFinally_propagated (cfg : ExcCfg) (bf : Option ExcSrc)
    (gens : List GenCall) (s : ExcSrc) :
    (bareFinallyOutcome cfg bf gens).propagated = some s → s.isCleanup = true := by
  unfold bareFinallyOutcome
  split_ifs <;> intro h <;> simp_all <;> subst h <;> rfl

/-- Every `generate_and_write_file` call entered by the per-file loop uses
the sanitized stem of one of the input files as its base name. -/
theorem transcribe_file_loop_names (cfg : ExcCfg) (fileobjs : List String)
    (fmt : String) (addts : Bool) :
    ∀ c ∈ (transcribe_file_loop cfg fileobjs fmt addts).2,
      ∃ p ∈ fileobjs, c.file_name = safe_filename (fileStem p) := by
  induction fileobjs with
  | nil =>
    intro c hc
    simp [transcribe_file_loop] at hc
  | cons f rest ih =>
    intro c hc
    simp only [transcribe_file_loop] at hc
    split_ifs at hc with h1 h2 h3 h4
    · simp at hc
    · simp at hc
    · simp at hc
      subst hc
      exact ⟨f, List.mem_cons_self f rest, rfl⟩
    · simp at hc
      rcases hc with hc | hc
      · subst hc
        exact ⟨f, List.mem_cons_self f rest, rfl⟩
      · obtain ⟨p, hp, hpf⟩ := ih c hc
        exact ⟨p, List.mem_cons_of_mem f hp, hpf⟩
    · simp at hc
      subst hc
      exact ⟨f, List.mem_cons_self f rest, rfl⟩

/-- Counterexample to claim C4 as stated: in `transcribe_youtube`, when
`get_ytdata` raises (an invalid link), the finally block's own `get_ytdata`
call raises again, the inner handler swallows it, and the function returns
without ever invoking `release_cuda_memory` or `remove_input_files`. -/
theorem cleanup_unconditional_cex :
    (transcribe_youtube_run cfgYtDataFail "title" "SRT" true).releaseRan = false ∧
    (transcribe_youtube_run cfgYtDataFail "title" "SRT" true).removeRan = false ∧
    (transcribe_youtube_run cfgYtDataFail "title" "SRT" true).propagated = none :=
  ⟨rfl, rfl, rfl⟩

/-- Claim C4 amended: `transcribe_file` and `transcribe_mic` invoke
`release_cuda_memory` on every exit path and invoke `remove_input_files` on
every exit path where the release call does not itself raise;
`transcribe_youtube` does the same only when the finally block's
re-derivation of the audio path (`get_ytdata`/`get_ytaudio`) does not raise. -/
theorem cleanup_unconditional_amended (cfg : ExcCfg) (fileobjs : List String)
    (ytTitle fmt : String) (addts : Bool) :
    ((transcribe_file_run cfg fileobjs fmt addts).releaseRan = true ∧
      (cfg.release_raises = false →
        (transcribe_file_run cfg fileobjs fmt addts).removeRan = true)) ∧
    ((transcribe_mic_run cfg fmt).releaseRan = true ∧
      (cfg.release_raises = false →
        (transcribe_mic_run cfg fmt).removeRan = true)) ∧
    (cfg.get_ytdata_raises = false → cfg.get_ytaudio_raises = false →
      ((transcribe_youtube_run cfg ytTitle fmt addts).releaseRan = true ∧
       (cfg.release_raises = false →
        (transcribe_youtube_run cfg ytTitle fmt addts).removeRan = true))) := by
  refine ⟨⟨?_, ?_⟩, ⟨?_, ?_⟩, ?_⟩
  · simp only [transcribe_file_run]
    exact bareFinally_releaseRan cfg _ _
  · intro h
    simp only [transcribe_file_run]
    exact bareFinally_removeRan cfg _ _ h
  · simp only [transcribe_mic_run]
    exact bareFinally_releaseRan cfg _ _
  · intro h
    simp only [transcribe_mic_run]
    exact bareFinally_removeRan cfg _ _ h
  · intro h1 h2
    constructor
    · simp [transcribe_youtube_run, h1, h2]
    · intro h3
      simp [transcribe_youtube_run, h1, h2, h3]

/-- Witness for the amended C4: with no failures, `transcribe_file` removes
its inputs and `transcribe_youtube` releases memory. -/
theorem cleanup_unconditional_amended_witness :
    (transcribe_file_run cfgNone ["a.wav"] "SRT" true).removeRan = true ∧
    (transcribe_youtube_run cfgNone "title" "SRT" true).releaseRan = true :=
  ⟨(cleanup_unconditional_amended cfgNone ["a.wav"] "title" "SRT" true).1.2 rfl,
   ((cleanup_unconditional_amended cfgNone ["a.wav"] "title" "SRT" true).2.2 rfl rfl).1⟩

/-- Claim C5: in all three entry points every body exception is caught at
the boundary (a message is logged and the normal return is abandoned, so the
caller receives the empty result), and nothing the entry point lets escape
originates in the try body: `transcribe_youtube` propagates nothing at all,
and `transcribe_file`/`transcribe_mic` can only re-raise from their own
cleanup calls. -/
theorem entrypoint_catch_spec (cfg : ExcCfg) (fileobjs : List String)
    (ytTitle fmt : String) (addts : Bool) :
    (∀ s, (transcribe_file_run cfg fileobjs fmt addts).propagated = some s →
      s.isCleanup = true) ∧
    ((transcribe_file_run cfg fileobjs fmt addts).bodyFail.isSome = true →
      (transcribe_file_run cfg fileobjs fmt addts).logged = true ∧
      (transcribe_file_run cfg fileobjs fmt addts).normalReturn = false) ∧
    (∀ s, (transcribe_mic_run cfg fmt).propagated = some s →
      s.isCleanup = true) ∧
    ((transcribe_mic_run cfg fmt).bodyFail.isSome = true →
      (transcribe_mic_run cfg fmt).logged = true ∧
      (transcribe_mic_run cfg fmt).normalReturn = false) ∧
    ((transcribe_youtube_run cfg ytTitle fmt addts).propagated = none) ∧
    ((transcribe_youtube_run cfg ytTitle fmt addts).bodyFail.isSome = true →
      (transcribe_youtube_run cfg ytTitle fmt addts).logged = true ∧
      (transcribe_youtube_run cfg ytTitle fmt addts).normalReturn = false) := by
  refine ⟨?_, ?_, ?_, ?_, ?_, ?_⟩
  · intro s
    simp only [transcribe_file_run]
    exact bareFinally_propagated cfg _ _ s
  · simp only [transcribe_file_run, bareFinally_bodyFail]
    intro h
    simp only [bareFinally_logged, h, true_and]
    exact bareFinally_normalReturn cfg _ _ h
  · intro s
    simp only [transcribe_mic_run]
    exact bareFinally_propagated cfg _ _ s
  · simp only [transcribe_mic_run, bareFinally_bodyFail]
    intro h
    simp only [bareFinally_logged, h, true_and]
    exact bareFinally_normalReturn cfg _ _ h
  · simp [transcribe_youtube_run]
  · simp only [transcribe_youtube_run]
    intro h
    exact ⟨h, isNone_eq_false_of_isSome h⟩

/-- Witness for C5: when the model call raises on a file job, the message is
logged and the normal return is not taken. -/
theorem entrypoint_catch_spec_witness :
    (transcribe_file_run cfgTransFail ["a.wav"] "SRT" true).logged = true ∧
    (transcribe_file_run cfgTransFail ["a.wav"] "SRT" true).normalReturn = false :=
  (entrypoint_catch_spec cfgTransFail ["a.wav"] "title" "SRT" true).2.1 (by decide)

/-- Counterexample to claim C6 as stated: in `transcribe_file` (and likewise
`transcribe_mic`) an exception raised by `release_cuda_memory` in the
finally block is not suppressed: it propagates to the caller. -/
theorem cleanup_suppression_cex :
    (transcribe_file_run cfgReleaseFail ["a.wav"] "SRT" true).propagated =
      some ExcSrc.releaseMem ∧
    ExcSrc.releaseMem.isCleanup = true :=
  ⟨rfl, rfl⟩

/-- Claim C6 amended: only `transcribe_youtube` suppresses exceptions of its
cleanup step (its finally block is wrapped in `except Exception: pass`);
in `transcribe_file` and `transcribe_mic` an exception raised by
`release_cuda_memory` or `remove_input_files` propagates to the caller. -/
theorem cleanup_suppression_amended (cfg : ExcCfg) (fileobjs : List String)
    (ytTitle fmt : String) (addts : Bool) :
    (transcribe_youtube_run cfg ytTitle fmt addts).propagated = none ∧
    (cfg.release_raises = true →
      (transcribe_file_run cfg fileobjs fmt addts).propagated =
        some ExcSrc.releaseMem ∧
      (transcribe_mic_run cfg fmt).propagated = some ExcSrc.releaseMem) ∧
    (cfg.release_raises = false → cfg.remove_raises = true →
      (transcribe_file_run cfg fileobjs fmt addts).propagated =
        some ExcSrc.removeFiles ∧
      (transcribe_mic_run cfg fmt).propagated = some ExcSrc.removeFiles) := by
  refine ⟨by simp [transcribe_youtube_run], ?_, ?_⟩
  · intro h
    constructor <;>
      simp [transcribe_file_run, transcribe_mic_run, bareFinallyOutcome, h]
  · intro h1 h2
    constructor <;>
      simp [transcribe_file_run, transcribe_mic_run, bareFinallyOutcome, h1, h2]

/-- Witness for the amended C6: a failure of `remove_input_files` escapes
`transcribe_file` and `transcribe_mic`. -/
theorem cleanup_suppression_amended_witness :
    (transcribe_file_run cfgRemoveFail ["a.wav"] "SRT" true).propagated =
      some ExcSrc.removeFiles ∧
    (transcribe_mic_run cfgRemoveFail "SRT").propagated =
      some ExcSrc.removeFiles :=
  (cleanup_suppression_amended cfgRemoveFail ["a.wav"] "title" "SRT" true).2.2 rfl rfl

/-- Claim C7: for the three supported formats the returned output path is
`outputs/<name>.<ext>` without timestamp and `outputs/<name>-<timestamp>.<ext>`
with it, where the extension is .srt for "SRT", .vtt for "WebVTT" and .txt
for "txt"; and every `generate_and_write_file` call made by
`transcribe_file` receives as base name the `safe_filename`-sanitized stem
of one of the input files. -/
theorem output_path_layout_spec (file_name : String) (segs : List Segment)
    (add_timestamp : Bool) (ts : String) :
    ((generate_and_write_file file_name segs add_timestamp "SRT" ts).returned =
      some (get_srt segs,
        (if add_timestamp then "outputs/" ++ file_name ++ "-" ++ ts
         else "outputs/" ++ file_name) ++ ".srt") ∧
     (generate_and_write_file file_name segs add_timestamp "WebVTT" ts).returned =
      some (get_vtt segs,
        (if add_timestamp then "outputs/" ++ file_name ++ "-" ++ ts
         else "outputs/" ++ file_name) ++ ".vtt") ∧
     (generate_and_write_file file_name segs add_timestamp "txt" ts).returned =
      some (get_txt segs,
        (if add_timestamp then "outputs/" ++ file_name ++ "-" ++ ts
         else "outputs/" ++ file_name) ++ ".txt")) ∧
    (∀ cfg : ExcCfg, ∀ fileobjs : List String, ∀ fmt : String, ∀ addts : Bool,
      ∀ c ∈ (transcribe_file_run cfg fileobjs fmt addts).genCalls,
        ∃ p ∈ fileobjs, c.file_name = safe_filename (fileStem p)) := by
  constructor
  · refine ⟨?_, ?_, ?_⟩ <;> simp [generate_and_write_file]
  · intro cfg fileobjs fmt addts c hc
    simp only [transcribe_file_run, bareFinally_genCalls] at hc
    by_cases hu : cfg.update_model_raises
    · simp [hu] at hc
    · simp only [hu, Bool.false_eq_true, if_false] at hc
      exact transcribe_file_loop_names cfg fileobjs fmt addts c hc

/-- Witness for C7: transcribing the uploaded file "a.srt" serializes under
the sanitized stem "a". -/
theorem output_path_layout_spec_witness :
    ∃ p ∈ ["a.srt"],
      (GenCall.mk "a" true "SRT").file_name = safe_filename (fileStem p) :=
  (output_path_layout_spec "n" [] false "t").2 cfgNone ["a.srt"] "SRT" true
    (GenCall.mk "a" true "SRT") (by decide)

/-- Claim C8: with `add_timestamp = false` the result of
`generate_and_write_file` does not depend on the wall-clock timestamp, so
two calls with the same remaining arguments return byte-identical content,
the identical path, and perform the identical writes. -/
theorem serialize_idempotent_spec (file_name : String) (segs : List Segment)
    (file_format ts1 ts2 : String) :
    generate_and_write_file file_name segs false file_format ts1 =
      generate_and_write_file file_name segs false file_format ts2 := rfl

/-- Claim C9: for a file format outside SRT/WebVTT/txt,
`generate_and_write_file` performs no write and raises (`content` is never
assigned before the return statement) instead of returning a pair. -/
theorem unsupported_format_spec (file_name : String) (segs : List Segment)
    (add_timestamp : Bool) (file_format ts : String)
    (h1 : file_format ≠ "SRT") (h2 : file_format ≠ "WebVTT")
    (h3 : file_format ≠ "txt") :
    (generate_and_write_file file_name segs add_timestamp file_format ts).returned =
      none ∧
    (generate_and_write_file file_name segs add_timestamp file_format ts).written =
      [] := by
  simp [generate_and_write_file, h1, h2, h3]

/-- Witness for C9: the format "PDF" yields no write and no returned pair. -/
theorem unsupported_format_spec_witness :
    (generate_and_write_file "a" [] false "PDF" "t").returned = none ∧
    (generate_and_write_file "a" [] false "PDF" "t").written = [] :=
  unsupported_format_spec "a" [] false "PDF" "t" (by decide) (by decide) (by decide)

/-- Claim C10: whenever `transcribe_mic` reaches the serialization step,
`generate_and_write_file` is called exactly once, with the fixed base name
"Mic" and `add_timestamp = True`, regardless of the file format and of
whether the write succeeds. -/
theorem mic_fixed_name_spec (cfg : ExcCfg) (fmt : String)
    (h1 : cfg.update_model_raises = false)
    (h2 : cfg.model_transcribe_raises = false) :
    (transcribe_mic_run cfg fmt).genCalls =
      [{ file_name := "Mic", add_timestamp := true, file_format := fmt }] := by
  simp only [transcribe_mic_run, bareFinally_genCalls, h1, h2,
    Bool.false_eq_true, if_false]
  split_ifs <;> rfl

/-- Witness for C10: an unexceptional microphone run generates exactly the
"Mic" call with a timestamp. -/
theorem mic_fixed_name_spec_witness :
    (transcribe_mic_run cfgNone "SRT").genCalls =
      [{ file_name := "Mic", add_timestamp := true, file_format := "SRT" }] :=
  mic_fixed_name_spec cfgNone "SRT" rfl rfl

end WhisperWebUI
